import Mathlib

/-!
Verification development for the kagayaku screen-cast portal backend.

The Rust sources are shallowly embedded as pure Lean functions:
* D-Bus / compositor calls are parameters of type `Except String _`
  (the outcome the call would have produced);
* async suspension points that may never resume are modelled with an
  explicit `blocks` outcome;
* `unwrap()` on `None` is modelled with an explicit `panicked` outcome;
* `HashMap`s are modelled as association lists (iteration order of the
  Rust `HashMap` is arbitrary; none of the verified properties depends
  on a particular order, the list order stands for one such order).
-/

namespace Kagayaku

/-- Outcome of executing a fallible / possibly non-terminating Rust
function: normal return, `Err` propagation, a `panic!` (from `unwrap()`
on `None`), or suspending forever on an `.await` that never resumes. -/
inductive ExecOutcome (α : Type) where
  | ok (a : α)
  | err (e : String)
  | panicked
  | blocks
  deriving Repr, DecidableEq

/-- `ExecOutcome.map`. -/
def ExecOutcome.map {α β : Type} (f : α → β) : ExecOutcome α → ExecOutcome β
  | .ok a => .ok (f a)
  | .err e => .err e
  | .panicked => .panicked
  | .blocks => .blocks

/-- `ashpd::desktop::screencast::SourceType` (bitflag values 1, 2, 4). -/
inductive SourceType where
  | monitor
  | window
  | virtual_
  deriving Repr, DecidableEq

/-- The `u32` representation of a `SourceType` bitflag. -/
def SourceType.toU32 : SourceType → Nat
  | .monitor => 1
  | .window => 2
  | .virtual_ => 4

/-- A `BitFlags<SourceType>` value: which of the three flags are set. -/
structure SourceTypes where
  monitor : Bool
  window : Bool
  virtual_ : Bool
  deriving Repr, DecidableEq

/-- `BitFlags::contains` for a single `SourceType` flag. -/
def SourceTypes.contains (s : SourceTypes) : SourceType → Bool
  | .monitor => s.monitor
  | .window => s.window
  | .virtual_ => s.virtual_

/-- `BitFlags::is_empty`. -/
def SourceTypes.isEmpty (s : SourceTypes) : Bool :=
  !s.monitor && !s.window && !s.virtual_

/-- The singleton flag set `SourceType::Monitor.into()`. -/
def SourceTypes.monitorOnly : SourceTypes := ⟨true, false, false⟩

/-- `ashpd::desktop::screencast::CursorMode`. -/
inductive CursorMode where
  | hidden
  | embedded
  | metadata
  deriving Repr, DecidableEq

/-- `ashpd::desktop::PersistMode`. -/
inductive PersistMode where
  | doNot
  | application
  | explicitlyRevoked
  deriving Repr, DecidableEq

/-! ## Display tracker (`src/backend/display_tracker.rs`)

`Monitor` and its `match_string` / `connector` accessors. -/

structure Monitor where
  connector : String
  vendor : String
  product : String
  serial : String
  display_name : String
  builtin : Bool
  width : Int
  height : Int
  deriving Repr, DecidableEq

/-- `Monitor::match_string` (`display_tracker.rs:22-28`). -/
def Monitor.match_string (m : Monitor) : String :=
  if m.vendor = "unknown" ∧ m.product = "unknown" ∧ m.serial = "unknown" then
    m.connector
  else
    m.vendor ++ ":" ++ m.product ++ ":" ++ m.serial

/-- `Monitor::connector` accessor. -/
def Monitor.connectorStr (m : Monitor) : String := m.connector

/-- A property-bag value as it arrives over D-Bus, before `downcast_ref`:
a string, a bool, or a value of some other signature. -/
inductive PropVal where
  | str (s : String)
  | boolean (b : Bool)
  | other
  deriving Repr, DecidableEq

/-- Property-bag lookup (`props.get(key)`). -/
def propGet (props : List (String × PropVal)) (key : String) : Option PropVal :=
  (props.find? (fun p => p.1 = key)).map (·.2)

/-- One mode entry of `GetCurrentState`: `(id, w, h, refresh, px, flags,
props)`; only width, height and the property bag are consumed. -/
structure RawMode where
  width : Int
  height : Int
  props : List (String × PropVal)
  deriving Repr, DecidableEq

/-- One monitor entry of `GetCurrentState`:
`((connector, vendor, product, serial), modes, props)`. -/
structure RawMonitor where
  connector : String
  vendor : String
  product : String
  serial : String
  modes : List RawMode
  props : List (String × PropVal)
  deriving Repr, DecidableEq

/-- `p.get("is-current").map_or(false, |v| v.downcast_ref().unwrap_or(false))`. -/
def modeIsCurrent (m : RawMode) : Bool :=
  match propGet m.props "is-current" with
  | some (.boolean b) => b
  | some _ => false
  | none => false

/-- The `(width, height)` of the current mode, `(0, 0)` if none is current
(`display_tracker.rs:76-82`). -/
def currentSize (modes : List RawMode) : Int × Int :=
  match modes.find? modeIsCurrent with
  | some m => (m.width, m.height)
  | none => (0, 0)

/-- Parsing of one `GetCurrentState` monitor entry into a `Monitor`
(`display_tracker.rs:63-96`): a `display-name` / `is-builtin` property of
the wrong signature fails the whole refresh via `?`. -/
def parseMonitor (r : RawMonitor) : Except String Monitor := do
  let display_name ←
    match propGet r.props "display-name" with
    | some (.str s) => pure s
    | some _ => throw "display-name"
    | none => pure r.connector
  let builtin ←
    match propGet r.props "is-builtin" with
    | some (.boolean b) => pure b
    | some _ => throw "is-builtin"
    | none => pure false
  let (width, height) := currentSize r.modes
  pure { connector := r.connector, vendor := r.vendor, product := r.product,
         serial := r.serial, display_name, builtin, width, height }

/-- `HashMap::insert` on an association list keyed by the first component. -/
def mapInsert {α β : Type} [DecidableEq α] (m : List (α × β)) (k : α) (v : β) :
    List (α × β) :=
  (m.filter (fun p => p.1 ≠ k)) ++ [(k, v)]

/-- The cache state of `DisplayStateTracker`: `monitors`, keyed by
connector. -/
structure DisplayStateTracker where
  monitors : List (String × Monitor)
  deriving Repr, DecidableEq

/-- Fold of the parse loop of the backend `refresh`
(`display_tracker.rs:63-97`), building the fresh local map. -/
def buildMonitors (data : List RawMonitor) :
    Except String (List (String × Monitor)) := do
  let mut monitors : List (String × Monitor) := []
  for r in data do
    let m ← parseMonitor r
    monitors := mapInsert monitors r.connector m
  pure monitors

/-- Backend `DisplayStateTracker::refresh` (`display_tracker.rs:58-102`):
builds a fresh local map from the `GetCurrentState` reply and assigns it
to `self.monitors` only after every entry parsed; the query outcome is the
`query` parameter. Returns the call result and the tracker afterwards. -/
def DisplayStateTracker.refresh (t : DisplayStateTracker)
    (query : Except String (List RawMonitor)) :
    Except String Unit × DisplayStateTracker :=
  match query with
  | .error e => (.error e, t)
  | .ok data =>
    match buildMonitors data with
    | .error e => (.error e, t)
    | .ok monitors => (.ok (), { monitors })

/-- `DisplayStateTracker::find_monitor` (`display_tracker.rs:118-122`):
linear scan of the map's values for an exact `match_string` hit. -/
def DisplayStateTracker.find_monitor (t : DisplayStateTracker)
    (ms : String) : Option Monitor :=
  (t.monitors.find? (fun p => p.2.match_string = ms)).map (·.2)

/-! ## Legacy display tracker (`src/display_state_tracker.rs`)

Same data model, but `refresh` clears `self.monitors` *before* the
snapshot query and inserts parsed entries one by one into the live map. -/

/-- Fold of the legacy parse loop (`display_state_tracker.rs:59-93`),
inserting into the already-cleared live map; a parse error aborts with the
insertions so far retained. -/
def legacyInsertLoop (acc : List (String × Monitor)) (data : List RawMonitor) :
    Except String (List (String × Monitor)) × List (String × Monitor) :=
  match data with
  | [] => (.ok acc, acc)
  | r :: rest =>
    match parseMonitor r with
    | .error e => (.error e, acc)
    | .ok m => legacyInsertLoop (mapInsert acc r.connector m) rest

/-- Legacy `DisplayStateTracker::refresh` (`display_state_tracker.rs:54-96`):
`self.monitors.clear()` first, then the query, then per-entry insertion
into the live map. -/
def legacyRefresh (_t : DisplayStateTracker)
    (query : Except String (List RawMonitor)) :
    Except String Unit × DisplayStateTracker :=
  -- self.monitors.clear() happens before the query
  match query with
  | .error e => (.error e, { monitors := [] })
  | .ok data =>
    match legacyInsertLoop [] data with
    | (res, monitors) => (res.map (fun _ => ()), { monitors })

/-! ## Window tracker (`src/backend/window_tracker.rs`) -/

structure Window where
  app_id : String
  title : String
  deriving Repr, DecidableEq

/-- The cache state of `WindowStateTracker`: `windows`, keyed by the
64-bit window id. -/
structure WindowStateTracker where
  windows : List (Nat × Window)
  deriving Repr, DecidableEq

/-- One entry of the `GetWindows` reply: the window id and its property
bag. -/
structure RawWindow where
  wid : Nat
  props : List (String × PropVal)
  deriving Repr, DecidableEq

/-- Parsing of one `GetWindows` entry (`window_tracker.rs:45-58`): both
property lookups and both downcasts go through `unwrap()`, so a missing or
non-string `app-id` / `title` panics instead of surfacing an error. -/
def parseWindow (r : RawWindow) : ExecOutcome (Nat × Window) :=
  match propGet r.props "app-id" with
  | some (.str app_id) =>
    match propGet r.props "title" with
    | some (.str title) => .ok (r.wid, ⟨app_id, title⟩)
    | _ => .panicked
  | _ => .panicked

/-- `WindowStateTracker::refresh` (`window_tracker.rs:40-64`): builds a
fresh local map, assigned to `self.windows` only at the end; the query
outcome is the `query` parameter; malformed entries panic. -/
def WindowStateTracker.refresh (t : WindowStateTracker)
    (query : Except String (List RawWindow)) :
    ExecOutcome Unit × WindowStateTracker :=
  match query with
  | .error e => (.err e, t)
  | .ok data =>
    match insLoop [] data with
    | (.ok _, m) => (.ok (), { windows := m })
    | (o, _) => (o.map (fun _ => ()), t)
where
  /-- the `for (wid, window) in proxy_resp.iter()` loop over the local map -/
  insLoop (acc : List (Nat × Window)) :
      List RawWindow → ExecOutcome Unit × List (Nat × Window)
    | [] => (.ok (), acc)
    | r :: rest =>
      match parseWindow r with
      | .ok (wid, w) => insLoop (mapInsert acc wid w) rest
      | .panicked => (.panicked, acc)
      | .err e => (.err e, acc)
      | .blocks => (.blocks, acc)

/-! ## Change-notification streams and `has_changed`

`DisplayStateTracker::has_changed` (`display_tracker.rs:104-116`) and
`WindowStateTracker::has_changed` (`window_tracker.rs:66-78`) are
textually identical.  A signal stream is modelled by the notifications
already buffered plus whether the source has permanently closed (after
which `next()` yields `None`); when the buffer is empty and the source is
still open and never produces another notification, `next().await`
suspends forever. -/

structure ChangeStream where
  queued : List Unit
  closed : Bool
  deriving Repr, DecidableEq

/-- The `loop { if self.changed_stream.next().await.is_none() { break } }`
body: keeps consuming buffered notifications; on an empty buffer it breaks
only if the stream has closed, otherwise the `.await` suspends forever. -/
def drainLoop (s : ChangeStream) : ExecOutcome Unit × ChangeStream :=
  go s.queued s.closed
where
  go : List Unit → Bool → ExecOutcome Unit × ChangeStream
    | _ :: rest, c => go rest c
    | [], c => if c then (.ok (), ⟨[], c⟩) else (.blocks, ⟨[], c⟩)

/-- `has_changed` (`display_tracker.rs:104-116` / `window_tracker.rs:66-78`):
a first `next().await`, returning `false` on `None`, then `drainLoop`,
then `true`. -/
def hasChanged (s : ChangeStream) : ExecOutcome Bool × ChangeStream :=
  match s.queued with
  | [] =>
    if s.closed then (.ok false, s) else (.blocks, s)
  | _ :: rest =>
    match drainLoop ⟨rest, s.closed⟩ with
    | (o, s') => (o.map (fun _ => true), s')

/-! ## Screencast streams and restore-blob decoding
(`src/backend/mod.rs`) -/

/-- `ScreencastStream` (`mod.rs:202-215`). -/
inductive ScreencastStream where
  | monitorS (id : Nat) (connector : String) (match_string : String)
  | windowS (id : Nat) (window_id : Nat) (app_id : String) (title : String)
  deriving Repr, DecidableEq

/-- The inner value of one restore-blob array element after the
`(u32, u32, OwnedValue)` downcast: a bare string, a 2-tuple of strings, or
a value of some other signature. -/
inductive RestorePayload where
  | str (s : String)
  | pair (a b : String)
  | other
  deriving Repr, DecidableEq

/-- One element of the restore-blob array: either its
`downcast::<(u32, u32, OwnedValue)>` fails, or it is an
`(id, source_kind, payload)` triple. -/
inductive RawEntry where
  | malformed
  | entry (id : Nat) (kind : Nat) (payload : RestorePayload)
  deriving Repr, DecidableEq

/-- The window-restoration scan (`mod.rs:543-558`): first window whose
`app_id` and (exactly) `title` match. -/
def windowLookup (windows : List (Nat × Window)) (app_id title : String) :
    Option Nat :=
  (windows.find? (fun p => p.2.app_id = app_id ∧ p.2.title = title)).map (·.1)

/-- Resolution of one restore-blob entry against the caches
(`mod.rs:514-567`): failed downcasts, unknown source kinds and virtual
entries yield `none` (the loop `continue`s); monitor entries resolve via
`find_monitor`, window entries via the window scan. -/
def resolveEntry (display : DisplayStateTracker) (windows : List (Nat × Window)) :
    RawEntry → Option ScreencastStream
  | .malformed => none
  | .entry id kind payload =>
    if kind = SourceType.monitor.toU32 then
      match payload with
      | .str match_string =>
        match display.find_monitor match_string with
        | some m => some (.monitorS id m.connectorStr m.match_string)
        | none => none
      | _ => none
    else if kind = SourceType.window.toU32 then
      match payload with
      | .pair app_id title =>
        match windowLookup windows app_id title with
        | some wid => some (.windowS id wid app_id title)
        | none => none
      | _ => none
    else
      -- SourceType::Virtual and unknown kinds: continue
      none

/-- The `for stream in iter` loop of `restore_streams` (`mod.rs:514-568`):
each entry pushes at most one resolved stream, in order. -/
def resolveEntries (display : DisplayStateTracker)
    (windows : List (Nat × Window)) : List RawEntry → List ScreencastStream
  | [] => []
  | e :: rest =>
    match resolveEntry display windows e with
    | some s => s :: resolveEntries display windows rest
    | none => resolveEntries display windows rest

/-- The tracker state `restore_streams` operates on: both caches, their
change streams, and the snapshot-query outcomes a refresh would see. -/
structure TrackerCtx where
  display : DisplayStateTracker
  displayStream : ChangeStream
  displayQuery : Except String (List RawMonitor)
  window : WindowStateTracker
  windowStream : ChangeStream
  windowQuery : Except String (List RawWindow)

/-- The refresh preamble of `restore_streams` (`mod.rs:503-512`): for each
cache, `has_changed` (which may suspend forever), and if it fired, a
`refresh` whose error is only logged (the window refresh may panic). -/
def restorePreamble (ctx : TrackerCtx) : ExecOutcome TrackerCtx :=
  match hasChanged ctx.displayStream with
  | (.ok b, ds') =>
    let display :=
      if b then (ctx.display.refresh ctx.displayQuery).2 else ctx.display
    match hasChanged ctx.windowStream with
    | (.ok bw, ws') =>
      if bw then
        match ctx.window.refresh ctx.windowQuery with
        | (.ok _, w') =>
          .ok { ctx with display, displayStream := ds', window := w',
                         windowStream := ws' }
        | (.err _, w') =>
          .ok { ctx with display, displayStream := ds', window := w',
                         windowStream := ws' }
        | (.panicked, _) => .panicked
        | (.blocks, _) => .blocks
      else
        .ok { ctx with display, displayStream := ds', windowStream := ws' }
    | (.err e, _) => .err e
    | (.panicked, _) => .panicked
    | (.blocks, _) => .blocks
  | (.err e, _) => .err e
  | (.panicked, _) => .panicked
  | (.blocks, _) => .blocks

/-- `ScreencastBackend::restore_streams` (`mod.rs:495-571`): the refresh
preamble followed by the per-entry resolution loop. -/
def restore_streams (ctx : TrackerCtx) (entries : List RawEntry) :
    ExecOutcome (List ScreencastStream) × TrackerCtx :=
  match restorePreamble ctx with
  | .ok ctx' =>
    (.ok (resolveEntries ctx'.display ctx'.window.windows entries), ctx')
  | .err e => (.err e, ctx)
  | .panicked => (.panicked, ctx)
  | .blocks => (.blocks, ctx)

/-! ## The Gnome compositor-session adapter (`src/backend/mod.rs:71-200`) -/

/-- `GnomeStreamRestoreData` (`mod.rs:71-74`). -/
inductive GnomeStreamRestoreData where
  | monitorR (match_string : String)
  | windowR (app_id title : String)
  deriving Repr, DecidableEq

/-- The eventual behaviour of one stream's `PipeWireStreamAdded` signal
stream, as observed by the single `next().await` in `GnomeSession::start`:
the signal never arrives and the source stays open (the await suspends
forever), the source closes without a signal (`None`), or an emission
arrives whose `args()` parse to a node id or fail. -/
inductive AwaitOutcome where
  | pending
  | closedA
  | emission (args : Option Nat)
  deriving Repr, DecidableEq

/-- `GnomeStream` (`mod.rs:76-82`). -/
structure GnomeStream where
  id : Nat
  pipewire_node_id : Option Nat
  source_type : SourceType
  added_stream : AwaitOutcome
  restore_data : GnomeStreamRestoreData
  deriving Repr, DecidableEq

/-- `GnomeSession` (`mod.rs:84-87`); `path` is the session object path the
compositor allocated, identifying the proxy. -/
structure GnomeSession where
  path : Nat
  streams : List GnomeStream
  deriving Repr, DecidableEq

/-- The per-stream wait loop of `GnomeSession::start` (`mod.rs:108-114`):
for each registered stream in registration order, one `next().await`; a
pending signal suspends the whole start forever; a closed source or a
malformed emission leaves `pipewire_node_id` unset and moves on. -/
def awaitAddedLoop : List GnomeStream → ExecOutcome (List GnomeStream)
  | [] => .ok []
  | s :: rest =>
    match s.added_stream with
    | .pending => .blocks
    | .closedA => (awaitAddedLoop rest).map (s :: ·)
    | .emission none => (awaitAddedLoop rest).map (s :: ·)
    | .emission (some n) =>
      (awaitAddedLoop rest).map (fun l => { s with pipewire_node_id := some n } :: l)

/-- `GnomeSession::start` (`mod.rs:105-117`): the `Session.Start` bus call
(its outcome is `proxyStart`), then the per-stream wait loop. -/
def GnomeSession.start (g : GnomeSession) (proxyStart : Except String Unit) :
    ExecOutcome GnomeSession :=
  match proxyStart with
  | .error e => .err e
  | .ok _ => (awaitAddedLoop g.streams).map (fun ss => { g with streams := ss })

/-- `GnomeSession::record_monitor` (`mod.rs:123-146`): the `RecordMonitor`
bus call plus `new_stream`'s proxy/signal setup, whose combined outcome is
`spec`; on success the stream is registered with no node id yet. -/
def GnomeSession.record_monitor (g : GnomeSession) (id : Nat)
    ( _connector match_string : String) (_cursor : CursorMode)
    (spec : Except String AwaitOutcome) : Except String GnomeSession :=
  match spec with
  | .error e => .error e
  | .ok a =>
    .ok { g with streams := g.streams ++
          [⟨id, none, .monitor, a, .monitorR match_string⟩] }

/-- `GnomeSession::record_window` (`mod.rs:148-174`). -/
def GnomeSession.record_window (g : GnomeSession) (id : Nat)
    (_window_id : Nat) (app_id title : String) (_cursor : CursorMode)
    (spec : Except String AwaitOutcome) : Except String GnomeSession :=
  match spec with
  | .error e => .error e
  | .ok a =>
    .ok { g with streams := g.streams ++
          [⟨id, none, .window, a, .windowR app_id title⟩] }

/-! ## The session registry (`src/backend/mod.rs:217-492`) -/

/-- `ScreencastSession` (`mod.rs:217-224`). -/
structure ScreencastSession where
  multiple : Bool
  cursor_mode : CursorMode
  source_type : SourceTypes
  persist_mode : PersistMode
  gnome_session : Option GnomeSession
  streams : List ScreencastStream
  deriving Repr, DecidableEq

/-- `ScreencastSession::default` (`mod.rs:226-237`). -/
def ScreencastSession.default : ScreencastSession where
  multiple := false
  cursor_mode := .hidden
  source_type := .monitorOnly
  persist_mode := .doNot
  gnome_session := none
  streams := []

/-- The session table `HashMap<HandleToken, ScreencastSession>`, as an
association list keyed by the token. -/
abbrev Registry := List (Nat × ScreencastSession)

/-- `sessions.get(&token)` / `get_mut(&token)` lookup. -/
def registryGet (r : Registry) (tok : Nat) : Option ScreencastSession :=
  (r.find? (fun p => p.1 = tok)).map (·.2)

/-- In-place mutation of the entry behind `get_mut(&token)`. -/
def registrySet (r : Registry) (tok : Nat) (s : ScreencastSession) : Registry :=
  r.map (fun p => if p.1 = tok then (tok, s) else p)

/-- `sessions.remove(&token)`. -/
def registryRemove (r : Registry) (tok : Nat) : Registry :=
  r.filter (fun p => p.1 ≠ tok)

/-- `ScreencastBackend::create_session` (`mod.rs:296-308`): inserts a
default entry and acks. -/
def create_session (r : Registry) (sessionToken : Nat) : Registry :=
  mapInsert r sessionToken ScreencastSession.default

/-- `ScreencastBackend::session_closed` (`mod.rs:274-284`): removes the
entry if present; if the removed entry held a live Gnome session, calls
`stop` on it (outcome `stopResult`) and propagates its error; an unknown
token falls through to `Ok(())`.  Also returns the object paths on which
`stop` was invoked. -/
def session_closed (stopResult : Except String Unit) (r : Registry)
    (tok : Nat) : ExecOutcome Unit × Registry × List Nat :=
  match registryGet r tok with
  | none => (.ok (), r, [])
  | some s =>
    let r' := registryRemove r tok
    match s.gnome_session with
    | none => (.ok (), r', [])
    | some g =>
      match stopResult with
      | .ok _ => (.ok (), r', [g.path])
      | .error e => (.err e, r', [g.path])

/-- The payload of `options.restore_data()` after the
`(i64, i64, Array)` downcast attempt (`mod.rs:343`). -/
inductive BlobPayload where
  | wellformed (t1 t2 : Int) (entries : List RawEntry)
  | malformedB
  deriving Repr, DecidableEq

/-- An `(provider, version, data)` restore triple. -/
structure RestoreData where
  provider : String
  version : Nat
  payload : BlobPayload
  deriving Repr, DecidableEq

/-- `SelectSourcesOptions`: each accessor yields `Some` exactly when the
caller supplied that key. -/
structure SelectSourcesOptions where
  multiple : Option Bool
  cursor_mode : Option CursorMode
  persist_mode : Option PersistMode
  types : Option SourceTypes
  restore_data : Option RestoreData
  deriving Repr, DecidableEq

/-- The field-update block of `select_sources` (`mod.rs:322-337`): each
present option overwrites the session field; an explicitly empty source
type set is replaced by `Monitor`. -/
def applyOptions (s : ScreencastSession) (o : SelectSourcesOptions) :
    ScreencastSession :=
  let s := match o.multiple with
    | some m => { s with multiple := m }
    | none => s
  let s := match o.cursor_mode with
    | some c => { s with cursor_mode := c }
    | none => s
  let s := match o.persist_mode with
    | some p => { s with persist_mode := p }
    | none => s
  match o.types with
  | some t =>
    { s with source_type := if t.isEmpty then .monitorOnly else t }
  | none => s

/-- `ScreencastBackend::select_sources` (`mod.rs:311-352`): unknown token
errors; field updates; then, when the (updated) persist mode wants
persistence and the restore triple matches provider `"Kagayaku"`,
version 1, and downcasts, the blob is resolved and a non-empty resolution
replaces `session.streams`. -/
def select_sources (reg : Registry) (tok : Nat) (o : SelectSourcesOptions)
    (ctx : TrackerCtx) : ExecOutcome Unit × Registry × TrackerCtx :=
  match registryGet reg tok with
  | none => (.err "unknown session token", reg, ctx)
  | some session0 =>
    let session := applyOptions session0 o
    match o.restore_data with
    | some rd =>
      if session.persist_mode ≠ PersistMode.doNot ∧
          rd.provider = "Kagayaku" ∧ rd.version = 1 then
        match rd.payload with
        | .wellformed _ _ entries =>
          match restore_streams ctx entries with
          | (.ok s, ctx') =>
            let session :=
              if s.isEmpty then session else { session with streams := s }
            (.ok (), registrySet reg tok session, ctx')
          | (.err e, ctx') => (.err e, registrySet reg tok session, ctx')
          | (.panicked, ctx') => (.panicked, registrySet reg tok session, ctx')
          | (.blocks, ctx') => (.blocks, registrySet reg tok session, ctx')
        | .malformedB => (.ok (), registrySet reg tok session, ctx)
      else (.ok (), registrySet reg tok session, ctx)
    | none => (.ok (), registrySet reg tok session, ctx)

/-! ## `start_cast` (`src/backend/mod.rs:354-491`) -/

/-- The external-world outcomes one `start_cast` execution observes:
the compositor `CreateSession` call, the `SessionProxy` build, the UI
channel send/receive, the per-record-call outcomes (indexed by how many
record calls have been issued so far), the `Session.Start` call, and the
concurrent mutation the session table undergoes while the lock is
released for the picker hand-off. -/
structure StartEnv where
  createSession : Except String Nat
  sessionNew : Except String Unit
  uiSend : Except String Unit
  uiRecv : Except String (List ScreencastStream)
  records : Nat → Except String AwaitOutcome
  gnomeStart : Except String Unit
  interference : Registry → Registry

/-- One stream of the `StartCastResponse` (`mod.rs:452-457`): the
PipeWire node id, the caller-assigned stream id, and the source type. -/
structure ResponseStream where
  node_id : Nat
  id : Nat
  source_type : SourceType
  deriving Repr, DecidableEq

/-- The `(provider, version, (t1, t2, entries))` restore blob of the
response (`mod.rs:479-486`); entries are
`(stream id, source kind as u32, payload)`. -/
structure RestoreBlob where
  provider : String
  version : Nat
  t1 : Int
  t2 : Int
  entries : List (Nat × Nat × GnomeStreamRestoreData)
  deriving Repr, DecidableEq

/-- `StartCastResponse`. -/
structure StartCastResponse where
  streams : List ResponseStream
  restore_data : Option RestoreBlob
  deriving Repr, DecidableEq

/-- The record loop of `start_cast` (`mod.rs:405-444`): iterates the
pre-resolved streams chained with the prompted ones; a stream whose kind
is not in the (freshly re-read) session's source types is skipped without
a compositor call; otherwise the next record outcome is consumed and an
error aborts the loop.  Returns the adapter and the record-call counter. -/
def recordCastLoop (fresh : ScreencastSession) (env : StartEnv) :
    GnomeSession → Nat → List ScreencastStream →
    Except String (GnomeSession × Nat)
  | g, k, [] => .ok (g, k)
  | g, k, s :: rest =>
    match s with
    | .monitorS id connector match_string =>
      if fresh.source_type.contains .monitor then
        match g.record_monitor id connector match_string fresh.cursor_mode
            (env.records k) with
        | .error e => .error e
        | .ok g' => recordCastLoop fresh env g' (k + 1) rest
      else
        recordCastLoop fresh env g k rest
    | .windowS id window_id app_id title =>
      if fresh.source_type.contains .window then
        match g.record_window id window_id app_id title fresh.cursor_mode
            (env.records k) with
        | .error e => .error e
        | .ok g' => recordCastLoop fresh env g' (k + 1) rest
      else
        recordCastLoop fresh env g k rest

/-- The response-building loop of `start_cast` (`mod.rs:448-486`): only
streams that obtained a node id contribute, both to the stream list and —
when persistence is requested — to the freshly encoded restore blob. -/
def buildCastResponse (persist : PersistMode) (gs : List GnomeStream) :
    StartCastResponse :=
  let started := gs.filterMap (fun s => s.pipewire_node_id.map (fun n => (n, s)))
  { streams := started.map (fun p => ⟨p.1, p.2.id, p.2.source_type⟩)
    restore_data :=
      if persist ≠ PersistMode.doNot then
        some ⟨"Kagayaku", 1, 0, 0,
              started.map (fun p => (p.2.id, p.2.source_type.toU32, p.2.restore_data))⟩
      else none }

/-- The hand-off block of `start_cast` (`mod.rs:376-400`): when the
session had no pre-resolved streams, the selection is obtained by sending
to the UI channel and waiting on the one-shot answer channel, each of
which can fail. -/
def uiPrompt (env : StartEnv) (prompt_session : Bool) :
    Except String (List ScreencastStream) :=
  if prompt_session then
    match env.uiSend with
    | .error e => .error ("cannot start UI: " ++ e)
    | .ok _ =>
      match env.uiRecv with
      | .error e => .error ("failed to receive data from UI: " ++ e)
      | .ok s => .ok s
  else .ok []

/-- The re-locked tail of `start_cast` (`mod.rs:402-491`): the entry is
re-read through `sessions.get_mut(&session_token).unwrap()` — an absent
entry panics — then the record loop, `GnomeSession::start`, the response,
and `session.gnome_session = Some(..)`. -/
def startCastResume (env : StartEnv) (reg1 : Registry) (tok : Nat)
    (path : Nat) (prompted : List ScreencastStream) :
    ExecOutcome StartCastResponse × Registry × List Nat :=
  match registryGet reg1 tok with
  | none => (.panicked, reg1, [])
  | some fresh =>
    match recordCastLoop fresh env ⟨path, []⟩ 0 (fresh.streams ++ prompted) with
    | .error e => (.err e, reg1, [])
    | .ok (gnome1, _) =>
      match gnome1.start env.gnomeStart with
      | .err e => (.err e, reg1, [])
      | .panicked => (.panicked, reg1, [])
      | .blocks => (.blocks, reg1, [])
      | .ok gnome2 =>
        (.ok (buildCastResponse fresh.persist_mode gnome2.streams),
         registrySet reg1 tok { fresh with gnome_session := some gnome2 },
         [])

/-- `ScreencastBackend::start_cast` (`mod.rs:354-491`).  Under the first
lock: token lookup (unknown errors), compositor session creation, proxy
build, and capture of `streams.is_empty()`.  The lock is then dropped —
the table meanwhile evolves by `env.interference` — the hand-off runs
(`uiPrompt`), and the lock is re-taken (`startCastResume`).  No path calls
`stop` (the third component lists the paths stopped during the call,
always `[]`). -/
def start_cast (env : StartEnv) (reg : Registry) (tok : Nat) :
    ExecOutcome StartCastResponse × Registry × List Nat :=
  match registryGet reg tok with
  | none => (.err "unknown session token", reg, [])
  | some session =>
    match env.createSession with
    | .error e => (.err e, reg, [])
    | .ok path =>
      match env.sessionNew with
      | .error e => (.err e, reg, [])
      | .ok _ =>
        -- drop(sessions): the table is unlocked from here to the re-lock
        let reg1 := env.interference reg
        match uiPrompt env session.streams.isEmpty with
        | .error e => (.err e, reg1, [])
        | .ok prompted => startCastResume env reg1 tok path prompted

/-! ## The picker UI (`src/ui/mod.rs`, `src/common.rs`) -/

/-- `ScreencastStreamChoice` (`common.rs:11-21`). -/
inductive ScreencastStreamChoice where
  | monitorC (connector : String) (match_string : String)
  | windowC (window_id : Nat) (app_id : String) (title : String)
  deriving Repr, DecidableEq

/-- `ToBackendMessage` (`common.rs:23-26`). -/
inductive ToBackendMessage where
  | success (remember_choice : Bool) (choices : List ScreencastStreamChoice)
  | cancel
  deriving Repr, DecidableEq

/-- Generic association-list lookup (`HashMap::get`). -/
def assocGet {α β : Type} [DecidableEq α] (m : List (α × β)) (k : α) :
    Option β :=
  (m.find? (fun p => p.1 = k)).map (·.2)

/-- The picker `App` state consumed by the `Share` handler: the two
snapshot maps and the current selection (`ui/mod.rs:47-84`).  The
`HashSet`s of selected keys are listed in some iteration order. -/
structure PickerApp where
  monitors : List (String × Monitor)
  windows : List (Nat × Window)
  selected_monitors : List String
  selected_windows : List Nat
  remember_choice : Bool

/-- The `res`-building loop of `Message::Share` (`ui/mod.rs:129-144`):
each selected connector / window id is looked up with `unwrap()` (a
selection no longer in the snapshot panics), producing the monitor choices
then the window choices. -/
def buildShareChoices (app : PickerApp) :
    ExecOutcome (List ScreencastStreamChoice) :=
  match monLoop app.selected_monitors with
  | .ok ms =>
    match winLoop app.selected_windows with
    | .ok ws => .ok (ms ++ ws)
    | o => o.map (fun w => w)
  | o => o
where
  monLoop : List String → ExecOutcome (List ScreencastStreamChoice)
    | [] => .ok []
    | c :: rest =>
      match assocGet app.monitors c with
      | none => .panicked
      | some m =>
        (monLoop rest).map (fun l => .monitorC c m.match_string :: l)
  winLoop : List Nat → ExecOutcome (List ScreencastStreamChoice)
    | [] => .ok []
    | wid :: rest =>
      match assocGet app.windows wid with
      | none => .panicked
      | some w =>
        (winLoop rest).map (fun l => .windowC wid w.app_id w.title :: l)

/-- The `Message::Share` arm of `App::update` (`ui/mod.rs:128-151`):
builds `res`, then sends
`ToBackendMessage::Success((self.state.remember_choice, Vec::new()))` —
the freshly built `res` is not the vector that is sent — and exits.
Returns the list the handler built together with the message it sent. -/
def updateShare (app : PickerApp) :
    ExecOutcome (List ScreencastStreamChoice × ToBackendMessage) :=
  match buildShareChoices app with
  | .ok res => .ok (res, .success app.remember_choice [])
  | .err e => .err e
  | .panicked => .panicked
  | .blocks => .blocks

/-- The `Message::Cancel` arm of `App::update` (`ui/mod.rs:124-127`). -/
def updateCancel (_app : PickerApp) : ToBackendMessage := .cancel

/-! ## Concrete fixtures used by the theorems -/

/-- The spec's sample monitor: Dell U2720Q on HDMI-1. -/
def sampleMonitor : Monitor :=
  ⟨"HDMI-1", "DEL", "U2720Q", "ABC123", "Dell", false, 3840, 2160⟩

/-- A sample window. -/
def sampleWindow : Window := ⟨"org.foo", "Inbox"⟩

/-- Environment for a `start` whose session a racing `close` removes while
the table lock is released for the picker hand-off; the picker itself
answers normally with an empty selection. -/
def envRacingClose : StartEnv where
  createSession := .ok 7
  sessionNew := .ok ()
  uiSend := .ok ()
  uiRecv := .ok []
  records := fun _ => .ok .pending
  gnomeStart := .ok ()
  interference := fun r => registryRemove r 0

/-- Environment for a `start` in which the compositor session opens but
the hand-off to the picker process fails. -/
def envUiSendFails : StartEnv where
  createSession := .ok 7
  sessionNew := .ok ()
  uiSend := .error "boom"
  uiRecv := .ok []
  records := fun _ => .ok .pending
  gnomeStart := .ok ()
  interference := id

/-- A session that has already been started: it holds a live adapter
(path 7) and a pre-resolved monitor stream. -/
def startedSession : ScreencastSession where
  multiple := false
  cursor_mode := .hidden
  source_type := .monitorOnly
  persist_mode := .doNot
  gnome_session := some ⟨7, []⟩
  streams := [.monitorS 1 "HDMI-1" "DEL:U2720Q:ABC123"]

/-- Environment in which every compositor call of a `start` succeeds and
the single stream's transport-ready notification delivers node id 55. -/
def envAllOk : StartEnv where
  createSession := .ok 8
  sessionNew := .ok ()
  uiSend := .ok ()
  uiRecv := .ok []
  records := fun _ => .ok (.emission (some 55))
  gnomeStart := .ok ()
  interference := id

/-- A registered stream whose transport-ready notification never arrives
while its signal source stays open. -/
def gsPendingFirst : GnomeStream := ⟨1, none, .monitor, .pending, .monitorR "m1"⟩

/-- A registered stream whose transport-ready notification delivers node
id 5. -/
def gsSecond : GnomeStream := ⟨2, none, .monitor, .emission (some 5), .monitorR "m2"⟩

/-- A registered stream whose signal source closed before delivering a
transport-ready notification. -/
def gsClosedFirst : GnomeStream := ⟨1, none, .monitor, .closedA, .monitorR "m1"⟩

/-- The picker state of the C3 scenario: one monitor and one window
selected, `remember_choice` on. -/
def pickerAppShare : PickerApp where
  monitors := [("HDMI-1", sampleMonitor)]
  windows := [(42, sampleWindow)]
  selected_monitors := ["HDMI-1"]
  selected_windows := [42]
  remember_choice := true

/-- The adapter the second `start` of the C5 scenario builds: compositor
path 8, one monitor stream that obtained node id 55. -/
def replacementAdapter : GnomeSession :=
  ⟨8, [⟨1, some 55, .monitor, .emission (some 55),
        .monitorR "DEL:U2720Q:ABC123"⟩]⟩

/-- A tracker context whose two change streams have closed with no
notification buffered: `has_changed` returns `false` on both, so the
restore preamble resolves against the caches as they are. -/
def quietCtx : TrackerCtx where
  display := ⟨[("HDMI-1", sampleMonitor)]⟩
  displayStream := ⟨[], true⟩
  displayQuery := .ok []
  window := ⟨[(42, sampleWindow)]⟩
  windowStream := ⟨[], true⟩
  windowQuery := .ok []

/-- First-`some` choice on options (`Option::or`): the value a field ends
up with when two option sets are applied and at most one carries it. -/
def optOr {α : Type} : Option α → Option α → Option α
  | some v, _ => some v
  | none, b => b

/-- The union of two `SelectSourcesOptions` sets, field-wise. -/
def mergeOpts (o1 o2 : SelectSourcesOptions) : SelectSourcesOptions where
  multiple := optOr o1.multiple o2.multiple
  cursor_mode := optOr o1.cursor_mode o2.cursor_mode
  persist_mode := optOr o1.persist_mode o2.persist_mode
  types := optOr o1.types o2.types
  restore_data := optOr o1.restore_data o2.restore_data

/-- Two option sets are disjoint when each configuration field is carried
by at most one of them. -/
def optsDisjoint (o1 o2 : SelectSourcesOptions) : Prop :=
  (o1.multiple = none ∨ o2.multiple = none) ∧
  (o1.cursor_mode = none ∨ o2.cursor_mode = none) ∧
  (o1.persist_mode = none ∨ o2.persist_mode = none) ∧
  (o1.types = none ∨ o2.types = none)

/-- The source-type normalisation `select_sources` applies: a supplied
empty flag set becomes `Monitor`, an absent one keeps the default. -/
def normType : Option SourceTypes → SourceTypes → SourceTypes
  | some t, _ => if t.isEmpty then .monitorOnly else t
  | none, d => d

/-- The restore-blob entries the decoder drops structurally (before any
cache lookup): a failed triple downcast, a source kind that is neither
monitor nor window (virtual and unrecognized values), or a payload of the
wrong shape for its kind. -/
def droppableEntry : RawEntry → Prop
  | .malformed => True
  | .entry _ kind payload =>
    (kind ≠ SourceType.monitor.toU32 ∧ kind ≠ SourceType.window.toU32) ∨
    (kind = SourceType.monitor.toU32 ∧ ∀ s, payload ≠ .str s) ∨
    (kind = SourceType.window.toU32 ∧ ∀ a b, payload ≠ .pair a b)

/-- Option set carrying only `multiple` (first call of the C6 witness). -/
def selOptsA : SelectSourcesOptions :=
  ⟨some true, none, none, none, none⟩

/-- Option set carrying only `cursor_mode` (second call of the C6
witness), disjoint from `selOptsA`. -/
def selOptsB : SelectSourcesOptions :=
  ⟨none, some .embedded, none, none, none⟩

/-- Option set of the C6 zero-stream witness: requests persistence and
carries a well-formed restore blob whose single monitor entry matches
nothing in the cache. -/
def selOptsRestoreMiss : SelectSourcesOptions :=
  ⟨none, none, some .application, none,
   some ⟨"Kagayaku", 1, .wellformed 0 0 [.entry 1 1 (.str "nope")]⟩⟩

/-- Option set of the C7 witness: a restore blob with a foreign provider
string. -/
def selOptsWrongProvider : SelectSourcesOptions :=
  ⟨none, none, some .application, none,
   some ⟨"Gnome", 1, .wellformed 0 0 [.entry 1 1 (.str "DEL:U2720Q:ABC123")]⟩⟩

/-! ## Registry helper lemmas -/

theorem registryGet_nil (tok : Nat) : registryGet [] tok = none := rfl

theorem registryGet_registrySet (reg : Registry) (tok : Nat)
    (s s' : ScreencastSession) (h : registryGet reg tok = some s) :
    registryGet (registrySet reg tok s') tok = some s' := by
  induction reg with
  | nil => simp [registryGet] at h
  | cons p rest ih =>
    by_cases hp : p.1 = tok
    · simp [registryGet, registrySet, List.find?, hp]
    · simp only [registryGet, registrySet, List.map] at h ⊢
      rw [if_neg hp] at *
      simp only [List.find?] at h ⊢
      rw [show (decide (p.1 = tok)) = false by simp [hp]] at h ⊢
      exact ih h

theorem registrySet_registrySet (reg : Registry) (tok : Nat)
    (a b : ScreencastSession) :
    registrySet (registrySet reg tok a) tok b = registrySet reg tok b := by
  simp only [registrySet, List.map_map]
  apply List.map_congr_left
  intro p _
  by_cases hp : p.1 = tok <;> simp [hp]

/-! ## `applyOptions` field characterisation -/

theorem applyOptions_multiple (s : ScreencastSession)
    (o : SelectSourcesOptions) :
    (applyOptions s o).multiple = o.multiple.getD s.multiple := by
  obtain ⟨m, c, p, t, r⟩ := o
  cases m <;> cases c <;> cases p <;> cases t <;> rfl

theorem applyOptions_cursor (s : ScreencastSession)
    (o : SelectSourcesOptions) :
    (applyOptions s o).cursor_mode = o.cursor_mode.getD s.cursor_mode := by
  obtain ⟨m, c, p, t, r⟩ := o
  cases m <;> cases c <;> cases p <;> cases t <;> rfl

theorem applyOptions_persist (s : ScreencastSession)
    (o : SelectSourcesOptions) :
    (applyOptions s o).persist_mode = o.persist_mode.getD s.persist_mode := by
  obtain ⟨m, c, p, t, r⟩ := o
  cases m <;> cases c <;> cases p <;> cases t <;> rfl

theorem applyOptions_source_type (s : ScreencastSession)
    (o : SelectSourcesOptions) :
    (applyOptions s o).source_type = normType o.types s.source_type := by
  obtain ⟨m, c, p, t, r⟩ := o
  cases m <;> cases c <;> cases p <;> cases t <;> rfl

theorem applyOptions_gnome (s : ScreencastSession)
    (o : SelectSourcesOptions) :
    (applyOptions s o).gnome_session = s.gnome_session := by
  obtain ⟨m, c, p, t, r⟩ := o
  cases m <;> cases c <;> cases p <;> cases t <;> rfl

theorem applyOptions_streams (s : ScreencastSession)
    (o : SelectSourcesOptions) :
    (applyOptions s o).streams = s.streams := by
  obtain ⟨m, c, p, t, r⟩ := o
  cases m <;> cases c <;> cases p <;> cases t <;> rfl

theorem sessionExt (a b : ScreencastSession)
    (h1 : a.multiple = b.multiple) (h2 : a.cursor_mode = b.cursor_mode)
    (h3 : a.source_type = b.source_type) (h4 : a.persist_mode = b.persist_mode)
    (h5 : a.gnome_session = b.gnome_session) (h6 : a.streams = b.streams) :
    a = b := by
  cases a
  cases b
  simp_all

theorem getD_optOr {α : Type} (o1 o2 : Option α) (x : α)
    (h : o1 = none ∨ o2 = none) :
    o2.getD (o1.getD x) = (optOr o1 o2).getD x := by
  rcases h with h | h <;> subst h
  · cases o2 <;> rfl
  · cases o1 <;> rfl

theorem normType_optOr (o1 o2 : Option SourceTypes) (x : SourceTypes)
    (h : o1 = none ∨ o2 = none) :
    normType o2 (normType o1 x) = normType (optOr o1 o2) x := by
  rcases h with h | h <;> subst h
  · cases o2 <;> rfl
  · cases o1 <;> rfl

/-- Disjoint option sets compose: applying one and then the other equals
applying their field-wise union. -/
theorem applyOptions_merge (s : ScreencastSession)
    (o1 o2 : SelectSourcesOptions) (hd : optsDisjoint o1 o2) :
    applyOptions (applyOptions s o1) o2 = applyOptions s (mergeOpts o1 o2) := by
  obtain ⟨h1, h2, h3, h4⟩ := hd
  apply sessionExt
  · rw [applyOptions_multiple, applyOptions_multiple, applyOptions_multiple]
    exact getD_optOr _ _ _ h1
  · rw [applyOptions_cursor, applyOptions_cursor, applyOptions_cursor]
    exact getD_optOr _ _ _ h2
  · rw [applyOptions_source_type, applyOptions_source_type,
      applyOptions_source_type]
    exact normType_optOr _ _ _ h4
  · rw [applyOptions_persist, applyOptions_persist, applyOptions_persist]
    exact getD_optOr _ _ _ h3
  · rw [applyOptions_gnome, applyOptions_gnome, applyOptions_gnome]
  · rw [applyOptions_streams, applyOptions_streams, applyOptions_streams]

/-! ## Claim C1 -/

/-- Claim C1: when the session entry is removed by a racing close while the
table lock is released for the picker hand-off, the re-read after the
hand-off goes through `get_mut(..).unwrap()` and panics — it does not
return a protocol error as the specification requires. -/
theorem C1_start_after_racing_close_panics :
    start_cast envRacingClose [(0, ScreencastSession.default)] 0 =
      (.panicked, [], []) := by
  rfl

/-! ## Claim C2 -/

/-- Claim C2 counterexample: the compositor capture session opens
successfully (`createSession = ok 7`) and the picker hand-off then fails;
the error is propagated and the session entry is untouched, but the stop
list is empty — the opened compositor session is abandoned, never
stopped. -/
theorem C2_counterexample_opened_session_not_stopped :
    envUiSendFails.createSession = Except.ok 7 ∧
    start_cast envUiSendFails [(0, ScreencastSession.default)] 0 =
      (.err "cannot start UI: boom", [(0, ScreencastSession.default)], []) :=
  ⟨rfl, rfl⟩

/-! ## Claim C3 -/

/-- Claim C3: with a non-empty selection, the Share handler builds the
chosen-sources list (here one monitor and one window) but then sends
`Success((remember_choice, Vec::new()))` — an empty source list — back to
the registry, discarding the list it just built. -/
theorem C3_share_sends_empty_list :
    updateShare pickerAppShare =
      .ok ([.monitorC "HDMI-1" "DEL:U2720Q:ABC123", .windowC 42 "org.foo" "Inbox"],
           .success true []) ∧
    ([ScreencastStreamChoice.monitorC "HDMI-1" "DEL:U2720Q:ABC123",
      .windowC 42 "org.foo" "Inbox"] ≠ []) := by
  exact ⟨rfl, by decide⟩

/-! ## Claim C4 -/

/-- Claim C4 counterexample: `session_closed` on an unknown token returns
`Ok(())`, not the unknown-session protocol error; the registry is
untouched and no stop is issued. -/
theorem C4_counterexample_unknown_close_is_silent :
    session_closed (.ok ()) [] 0 = (.ok (), [], []) ∧
    ((ExecOutcome.ok () : ExecOutcome Unit) ≠ .err "unknown session token") :=
  ⟨rfl, by decide⟩

/-- Claim C4 (amended): `session_closed` with a token absent from the
registry silently succeeds with no side effect: the registry is unchanged
and no adapter is stopped. -/
theorem C4_unknown_close_silent_no_side_effect (stopRes : Except String Unit)
    (reg : Registry) (tok : Nat) (h : registryGet reg tok = none) :
    session_closed stopRes reg tok = (.ok (), reg, []) := by
  unfold session_closed
  rw [h]

/-- Witness for the amended C4 theorem at a concrete input. -/
theorem C4_unknown_close_silent_no_side_effect_witness :
    session_closed (.ok ()) [] 5 = (.ok (), [], []) :=
  C4_unknown_close_silent_no_side_effect (.ok ()) [] 5 rfl

/-! ## Claim C5 -/

/-- Claim C5 counterexample: a second `start` on a session that already
holds a live adapter (path 7) is not rejected — it succeeds and silently
replaces the adapter with a fresh one (path 8), without stopping the old
one. -/
theorem C5_counterexample_second_start_not_rejected :
    startedSession.gnome_session = some ⟨7, []⟩ ∧
    start_cast envAllOk [(0, startedSession)] 0 =
      (.ok ⟨[⟨55, 1, .monitor⟩], none⟩,
       [(0, { startedSession with gnome_session := some replacementAdapter })],
       []) ∧
    (some replacementAdapter ≠ some (⟨7, []⟩ : GnomeSession)) := by
  refine ⟨rfl, rfl, by decide⟩

/-- Shape of the re-locked tail: no stop is issued, and the table is
either left as it was at re-lock time or — exactly on the success path —
updated by overwriting the entry's `gnome_session` field. -/
theorem startCastResume_shape (env : StartEnv) (reg1 : Registry) (tok : Nat)
    (path : Nat) (prompted : List ScreencastStream) :
    (startCastResume env reg1 tok path prompted).2.2 = [] ∧
    (((startCastResume env reg1 tok path prompted).2.1 = reg1 ∧
       ∀ resp, (startCastResume env reg1 tok path prompted).1 ≠ .ok resp) ∨
      ∃ fresh g' resp, registryGet reg1 tok = some fresh ∧
        (startCastResume env reg1 tok path prompted).1 = .ok resp ∧
        (startCastResume env reg1 tok path prompted).2.1 =
          registrySet reg1 tok { fresh with gnome_session := some g' }) := by
  rcases h1 : registryGet reg1 tok with - | fresh <;>
    simp only [startCastResume, h1]
  · simp
  · rcases h7 : recordCastLoop fresh env ⟨path, []⟩ 0 (fresh.streams ++ prompted)
      with e | ⟨gnome1, k⟩ <;> simp only [h7]
    · simp
    · rcases h8 : gnome1.start env.gnomeStart with g2 | e | - | - <;>
        simp only [h8]
      · refine ⟨trivial, Or.inr ⟨fresh, g2,
          buildCastResponse fresh.persist_mode g2.streams, ?_, ?_, ?_⟩⟩ <;> rfl
      · simp
      · simp
      · simp

/-- Shape of every `start_cast` execution under serialized per-session
access (no concurrent table mutation): no branch issues a `stop`, and the
table is either left unchanged or — exactly on the success path — updated
by overwriting the entry's `gnome_session` field. -/
theorem start_cast_shape (env : StartEnv) (reg : Registry) (tok : Nat)
    (hint : ∀ r, env.interference r = r) :
    (start_cast env reg tok).2.2 = [] ∧
    (((start_cast env reg tok).2.1 = reg ∧
       ∀ resp, (start_cast env reg tok).1 ≠ .ok resp) ∨
      ∃ session g' resp, registryGet reg tok = some session ∧
        (start_cast env reg tok).1 = .ok resp ∧
        (start_cast env reg tok).2.1 =
          registrySet reg tok { session with gnome_session := some g' }) := by
  rcases h1 : registryGet reg tok with - | session <;>
    simp only [start_cast, h1, hint]
  · simp
  · rcases h2 : env.createSession with e | path <;> simp only [h2]
    · simp
    · rcases h3 : env.sessionNew with e | u <;> simp only [h3]
      · simp
      · rcases h4 : uiPrompt env session.streams.isEmpty with e | prompted <;>
          simp only [h4]
        · simp
        · obtain ⟨hs, hor⟩ := startCastResume_shape env reg tok path prompted
          refine ⟨hs, ?_⟩
          rcases hor with hl | ⟨fresh, g', resp, hget, hok, hreg⟩
          · exact Or.inl hl
          · refine Or.inr ⟨fresh, g', resp, ?_, hok, hreg⟩
            rw [← h1]
            exact hget

/-- Claim C2 (amended): with serialized per-session access, whenever a
step of `start_cast` after the session lookup fails with an error, the
error is propagated to the caller, the session table is left unchanged (in
particular the entry's adapter field stays absent), but the opened
compositor session is not stopped: `start_cast` contains no stop call on
any path, so the session object is dropped, not released. -/
theorem C2_error_propagated_no_leftover_state_no_stop
    (env : StartEnv) (reg : Registry) (tok : Nat) (e : String)
    (hint : ∀ r, env.interference r = r)
    (herr : (start_cast env reg tok).1 = .err e) :
    (start_cast env reg tok).2.1 = reg ∧
    (start_cast env reg tok).2.2 = [] := by
  obtain ⟨hs, hor⟩ := start_cast_shape env reg tok hint
  refine ⟨?_, hs⟩
  rcases hor with ⟨hl, -⟩ | ⟨s, g', resp, -, hok, -⟩
  · exact hl
  · rw [herr] at hok
    cases hok

/-- Witness for the amended C2 theorem at the concrete failing hand-off
environment. -/
theorem C2_error_propagated_no_leftover_state_no_stop_witness :
    (start_cast envUiSendFails [(0, ScreencastSession.default)] 0).2.1 =
      [(0, ScreencastSession.default)] ∧
    (start_cast envUiSendFails [(0, ScreencastSession.default)] 0).2.2 = [] :=
  C2_error_propagated_no_leftover_state_no_stop envUiSendFails
    [(0, ScreencastSession.default)] 0 "cannot start UI: boom"
    (fun _ => rfl) rfl

/-- Claim C5 (amended): a second `start` on a session that already holds a
live adapter is not rejected: whenever it succeeds, it silently replaces
the entry's adapter with the newly built one, and the previous adapter is
never stopped (no stop is issued anywhere in `start_cast`). -/
theorem C5_second_start_replaces_adapter
    (env : StartEnv) (reg : Registry) (tok : Nat)
    (session : ScreencastSession) (g : GnomeSession) (resp : StartCastResponse)
    (hint : ∀ r, env.interference r = r)
    (hs : registryGet reg tok = some session)
    (hg : session.gnome_session = some g)
    (hok : (start_cast env reg tok).1 = .ok resp) :
    (∃ g', (start_cast env reg tok).2.1 =
       registrySet reg tok { session with gnome_session := some g' }) ∧
    (start_cast env reg tok).2.2 = [] := by
  obtain ⟨hstop, hor⟩ := start_cast_shape env reg tok hint
  refine ⟨?_, hstop⟩
  rcases hor with ⟨-, hne⟩ | ⟨s', g', resp', hget, -, hreg⟩
  · exact absurd hok (hne resp)
  · rw [hs] at hget
    injection hget with hse
    subst hse
    exact ⟨g', hreg⟩

/-- Witness for the amended C5 theorem at the concrete double-start
scenario. -/
theorem C5_second_start_replaces_adapter_witness :
    (∃ g', (start_cast envAllOk [(0, startedSession)] 0).2.1 =
       registrySet [(0, startedSession)] 0
         { startedSession with gnome_session := some g' }) ∧
    (start_cast envAllOk [(0, startedSession)] 0).2.2 = [] :=
  C5_second_start_replaces_adapter envAllOk [(0, startedSession)] 0
    startedSession ⟨7, []⟩ ⟨[⟨55, 1, .monitor⟩], none⟩
    (fun _ => rfl) rfl rfl rfl

/-! ## Claim C6 -/

/-- Claim C6: `select_sources` is a partial update.  Two calls with
disjoint option sets (and no restore data) compose to the field-wise union
of their effects — each field ends up with the value of whichever call
carried it, fields carried by neither keep their prior value — and a
restore resolution that yields zero streams leaves the session's
previously resolved stream list untouched. -/
theorem C6_configure_incremental_update :
    (∀ (reg : Registry) (tok : Nat) (s : ScreencastSession) (ctx : TrackerCtx)
        (o1 o2 : SelectSourcesOptions),
      registryGet reg tok = some s →
      o1.restore_data = none → o2.restore_data = none →
      optsDisjoint o1 o2 →
      select_sources reg tok o1 ctx =
        (.ok (), registrySet reg tok (applyOptions s o1), ctx) ∧
      select_sources (registrySet reg tok (applyOptions s o1)) tok o2 ctx =
        (.ok (), registrySet reg tok (applyOptions s (mergeOpts o1 o2)), ctx)) ∧
    (∀ (reg : Registry) (tok : Nat) (s : ScreencastSession)
        (ctx ctx' : TrackerCtx) (o : SelectSourcesOptions) (rd : RestoreData)
        (t1 t2 : Int) (entries : List RawEntry),
      registryGet reg tok = some s →
      o.restore_data = some rd →
      rd.payload = .wellformed t1 t2 entries →
      restorePreamble ctx = .ok ctx' →
      resolveEntries ctx'.display ctx'.window.windows entries = [] →
      (select_sources reg tok o ctx).1 = .ok () ∧
      (select_sources reg tok o ctx).2.1 =
        registrySet reg tok (applyOptions s o) ∧
      (applyOptions s o).streams = s.streams) := by
  constructor
  · intro reg tok s ctx o1 o2 hs h1 h2 hd
    constructor
    · simp only [select_sources, hs, h1]
    · have hg : registryGet (registrySet reg tok (applyOptions s o1)) tok =
          some (applyOptions s o1) :=
        registryGet_registrySet reg tok s _ hs
      simp only [select_sources, hg, h2]
      rw [registrySet_registrySet, applyOptions_merge s o1 o2 hd]
  · intro reg tok s ctx ctx' o rd t1 t2 entries hs ho hp hpre hres
    have hrs : restore_streams ctx entries = (.ok [], ctx') := by
      simp [restore_streams, hpre, hres]
    simp only [select_sources, hs, ho, hp]
    by_cases hgate : (applyOptions s o).persist_mode ≠ PersistMode.doNot ∧
        rd.provider = "Kagayaku" ∧ rd.version = 1
    · rw [if_pos hgate, hrs]
      exact ⟨rfl, rfl, applyOptions_streams s o⟩
    · rw [if_neg hgate]
      exact ⟨rfl, rfl, applyOptions_streams s o⟩

/-- Witness for C6 at concrete inputs: the disjoint pair carrying only
`multiple` and only `cursor_mode`, and a persistent restore whose single
entry matches nothing. -/
theorem C6_configure_incremental_update_witness :
    (select_sources [(0, ScreencastSession.default)] 0 selOptsA quietCtx =
      (.ok (), registrySet [(0, ScreencastSession.default)] 0
        (applyOptions ScreencastSession.default selOptsA), quietCtx) ∧
     select_sources
        (registrySet [(0, ScreencastSession.default)] 0
          (applyOptions ScreencastSession.default selOptsA)) 0 selOptsB quietCtx =
      (.ok (), registrySet [(0, ScreencastSession.default)] 0
        (applyOptions ScreencastSession.default (mergeOpts selOptsA selOptsB)),
       quietCtx)) ∧
    ((select_sources [(0, ScreencastSession.default)] 0 selOptsRestoreMiss
        quietCtx).1 = .ok () ∧
     (select_sources [(0, ScreencastSession.default)] 0 selOptsRestoreMiss
        quietCtx).2.1 =
       registrySet [(0, ScreencastSession.default)] 0
         (applyOptions ScreencastSession.default selOptsRestoreMiss) ∧
     (applyOptions ScreencastSession.default selOptsRestoreMiss).streams =
       ScreencastSession.default.streams) :=
  ⟨C6_configure_incremental_update.1 [(0, ScreencastSession.default)] 0
     ScreencastSession.default quietCtx selOptsA selOptsB rfl rfl rfl
     ⟨Or.inr rfl, Or.inl rfl, Or.inl rfl, Or.inl rfl⟩,
   C6_configure_incremental_update.2 [(0, ScreencastSession.default)] 0
     ScreencastSession.default quietCtx quietCtx selOptsRestoreMiss
     ⟨"Kagayaku", 1, .wellformed 0 0 [.entry 1 1 (.str "nope")]⟩ 0 0
     [.entry 1 1 (.str "nope")] rfl rfl rfl rfl (by decide)⟩

/-! ## Claim C7 -/

/-- A structurally droppable entry resolves to nothing. -/
theorem resolveEntry_none_of_droppable (d : DisplayStateTracker)
    (w : List (Nat × Window)) (e : RawEntry) (h : droppableEntry e) :
    resolveEntry d w e = none := by
  cases e with
  | malformed => rfl
  | entry id kind payload =>
    rcases h with ⟨hk1, hk2⟩ | ⟨hk, hp⟩ | ⟨hk, hp⟩
    · simp [resolveEntry, hk1, hk2]
    · subst hk
      cases payload with
      | str s => exact absurd rfl (hp s)
      | pair a b => simp [resolveEntry]
      | other => simp [resolveEntry]
    · subst hk
      cases payload with
      | str s => simp [resolveEntry, SourceType.toU32]
      | pair a b => exact absurd rfl (hp a b)
      | other => simp [resolveEntry, SourceType.toU32]

/-- Claim C7: restore-blob decoding is accept-or-reject per entry.  A blob
whose provider is not `"Kagayaku"` or whose version is not 1 is ignored
without an operation-level error (the select-sources call still succeeds
and the session's stream list is untouched); a malformed entry, an entry
of unknown kind, a virtual entry, or an entry whose payload has the wrong
shape is dropped from the resolution without affecting its neighbours;
every virtual entry resolves to nothing; and the remaining well-formed
monitor and window entries are still resolved against the caches. -/
theorem C7_restore_decoding_per_entry :
    (∀ (reg : Registry) (tok : Nat) (s : ScreencastSession) (ctx : TrackerCtx)
        (o : SelectSourcesOptions) (rd : RestoreData),
      registryGet reg tok = some s →
      o.restore_data = some rd →
      (rd.provider ≠ "Kagayaku" ∨ rd.version ≠ 1) →
      select_sources reg tok o ctx =
        (.ok (), registrySet reg tok (applyOptions s o), ctx)) ∧
    (∀ (d : DisplayStateTracker) (w : List (Nat × Window))
        (l1 l2 : List RawEntry) (e : RawEntry),
      droppableEntry e →
      resolveEntries d w (l1 ++ e :: l2) = resolveEntries d w (l1 ++ l2)) ∧
    (∀ (d : DisplayStateTracker) (w : List (Nat × Window)) (id : Nat)
        (p : RestorePayload),
      resolveEntry d w (.entry id SourceType.virtual_.toU32 p) = none) ∧
    (∀ (d : DisplayStateTracker) (w : List (Nat × Window)) (id : Nat)
        (ms : String) (m : Monitor) (l : List RawEntry),
      d.find_monitor ms = some m →
      resolveEntries d w (.entry id SourceType.monitor.toU32 (.str ms) :: l) =
        .monitorS id m.connectorStr m.match_string :: resolveEntries d w l) ∧
    (∀ (d : DisplayStateTracker) (w : List (Nat × Window)) (id : Nat)
        (a t : String) (wid : Nat) (l : List RawEntry),
      windowLookup w a t = some wid →
      resolveEntries d w (.entry id SourceType.window.toU32 (.pair a t) :: l) =
        .windowS id wid a t :: resolveEntries d w l) := by
  refine ⟨?_, ?_, ?_, ?_, ?_⟩
  · intro reg tok s ctx o rd hs ho h
    simp only [select_sources, hs, ho]
    rw [if_neg]
    rintro ⟨-, hp, hv⟩
    rcases h with h | h
    · exact h hp
    · exact h hv
  · intro d w l1 l2 e h
    induction l1 with
    | nil =>
      simp only [List.nil_append, resolveEntries,
        resolveEntry_none_of_droppable d w e h]
    | cons a l1 ih =>
      simp only [List.cons_append, resolveEntries]
      cases hr : resolveEntry d w a <;> simp [hr, ih]
  · intro d w id p
    cases p <;> simp [resolveEntry, SourceType.toU32]
  · intro d w id ms m l h
    simp [resolveEntries, resolveEntry, SourceType.toU32, h]
  · intro d w id a t wid l h
    simp [resolveEntries, resolveEntry, SourceType.toU32, h]

/-- Witness for C7 at concrete inputs: a foreign-provider blob on a
default session, a malformed entry dropped between two monitor entries, a
virtual entry, and the spec's monitor and window resolution scenarios. -/
theorem C7_restore_decoding_per_entry_witness :
    select_sources [(0, ScreencastSession.default)] 0 selOptsWrongProvider
      quietCtx =
      (.ok (), registrySet [(0, ScreencastSession.default)] 0
        (applyOptions ScreencastSession.default selOptsWrongProvider),
       quietCtx) ∧
    resolveEntries quietCtx.display [(42, sampleWindow)]
        [.entry 1 1 (.str "DEL:U2720Q:ABC123"), .malformed,
         .entry 2 1 (.str "DEL:U2720Q:ABC123")] =
      resolveEntries quietCtx.display [(42, sampleWindow)]
        [.entry 1 1 (.str "DEL:U2720Q:ABC123"),
         .entry 2 1 (.str "DEL:U2720Q:ABC123")] ∧
    resolveEntry quietCtx.display [(42, sampleWindow)]
      (.entry 3 SourceType.virtual_.toU32 (.str "x")) = none ∧
    resolveEntries quietCtx.display [(42, sampleWindow)]
        [.entry 1 SourceType.monitor.toU32 (.str "DEL:U2720Q:ABC123")] =
      [.monitorS 1 sampleMonitor.connectorStr sampleMonitor.match_string] ∧
    resolveEntries quietCtx.display [(42, sampleWindow)]
        [.entry 4 SourceType.window.toU32 (.pair "org.foo" "Inbox")] =
      [.windowS 4 42 "org.foo" "Inbox"] :=
  ⟨C7_restore_decoding_per_entry.1 [(0, ScreencastSession.default)] 0
     ScreencastSession.default quietCtx selOptsWrongProvider
     ⟨"Gnome", 1, .wellformed 0 0 [.entry 1 1 (.str "DEL:U2720Q:ABC123")]⟩
     rfl rfl (Or.inl (by decide)),
   C7_restore_decoding_per_entry.2.1 quietCtx.display [(42, sampleWindow)]
     [.entry 1 1 (.str "DEL:U2720Q:ABC123")]
     [.entry 2 1 (.str "DEL:U2720Q:ABC123")] .malformed trivial,
   C7_restore_decoding_per_entry.2.2.1 quietCtx.display [(42, sampleWindow)]
     3 (.str "x"),
   C7_restore_decoding_per_entry.2.2.2.1 quietCtx.display [(42, sampleWindow)]
     1 "DEL:U2720Q:ABC123" sampleMonitor [] (by decide),
   C7_restore_decoding_per_entry.2.2.2.2 quietCtx.display [(42, sampleWindow)]
     4 "org.foo" "Inbox" 42 [] (by decide)⟩

/-! ## Claim C8 -/

/-- Claim C8 counterexample: two registered streams, the first's
transport-ready notification never arrives while its signal source stays
open, the second's delivers node id 5.  `GnomeSession::start` suspends
forever on the first stream's `next().await` — there is no final response
list at all, rather than a list containing exactly the second stream. -/
theorem C8_counterexample_pending_first_blocks :
    GnomeSession.start ⟨7, [gsPendingFirst, gsSecond]⟩ (.ok ()) = .blocks ∧
    GnomeSession.start ⟨7, [gsPendingFirst, gsSecond]⟩ (.ok ()) ≠
      .ok ⟨7, [gsPendingFirst, { gsSecond with pipewire_node_id := some 5 }]⟩ := by
  exact ⟨rfl, by decide⟩

/-- Claim C8 (amended): after `Session.Start`, the adapter waits on each
registered stream in registration order; a stream whose wait ends without
a node id — its signal source closed, or the emission's arguments fail to
parse — is excluded from the final response list rather than failing the
start; but a notification that never arrives while its source stays open
suspends the whole start forever.  With two registered streams where the
first's source closed and only the second delivers a node id, the
response contains exactly the second stream. -/
theorem C8_unready_stream_excluded_or_start_blocks :
    (∀ (path : Nat) (g1 g2 : GnomeStream) (n : Nat),
      (g1.added_stream = .closedA ∨ g1.added_stream = .emission none) →
      g1.pipewire_node_id = none →
      g2.added_stream = .emission (some n) →
      GnomeSession.start ⟨path, [g1, g2]⟩ (.ok ()) =
        .ok ⟨path, [g1, { g2 with pipewire_node_id := some n }]⟩ ∧
      buildCastResponse .doNot [g1, { g2 with pipewire_node_id := some n }] =
        ⟨[⟨n, g2.id, g2.source_type⟩], none⟩) ∧
    (∀ (path : Nat) (g : GnomeStream) (rest : List GnomeStream),
      g.added_stream = .pending →
      GnomeSession.start ⟨path, g :: rest⟩ (.ok ()) = .blocks) := by
  constructor
  · intro path g1 g2 n h1 hn1 h2
    constructor
    · rcases h1 with h1 | h1 <;>
        simp [GnomeSession.start, awaitAddedLoop, h1, h2, ExecOutcome.map]
    · simp [buildCastResponse, hn1]
  · intro path g rest h
    simp [GnomeSession.start, awaitAddedLoop, h, ExecOutcome.map]

/-- Witness for the amended C8 theorem: the spec's two-stream scenario
with the first stream's source closed, and the blocking case. -/
theorem C8_unready_stream_excluded_or_start_blocks_witness :
    (GnomeSession.start ⟨7, [gsClosedFirst, gsSecond]⟩ (.ok ()) =
       .ok ⟨7, [gsClosedFirst, { gsSecond with pipewire_node_id := some 5 }]⟩ ∧
     buildCastResponse .doNot
         [gsClosedFirst, { gsSecond with pipewire_node_id := some 5 }] =
       ⟨[⟨5, 2, .monitor⟩], none⟩) ∧
    GnomeSession.start ⟨7, [gsPendingFirst]⟩ (.ok ()) = .blocks :=
  ⟨C8_unready_stream_excluded_or_start_blocks.1 7 gsClosedFirst gsSecond 5
     (Or.inl rfl) rfl rfl,
   C8_unready_stream_excluded_or_start_blocks.2 7 gsPendingFirst [] rfl⟩

/-! ## Claim C9 -/

/-- Claim C9 counterexample: one notification is already buffered and the
source stays open with no further notification ever arriving; the drain
loop's own `next().await` suspends forever instead of returning `true`. -/
theorem C9_counterexample_drain_blocks_on_open_stream :
    (hasChanged ⟨[()], false⟩).1 = .blocks ∧
    ((ExecOutcome.blocks : ExecOutcome Bool) ≠ .ok true) :=
  ⟨rfl, by decide⟩

/-- The drain loop consumes the whole buffer and then suspends forever on
an open source, or breaks once the source has closed. -/
theorem drainLoop_go_spec (l : List Unit) :
    drainLoop.go l false = (.blocks, ⟨[], false⟩) ∧
    drainLoop.go l true = (.ok (), ⟨[], true⟩) := by
  induction l with
  | nil => exact ⟨rfl, rfl⟩
  | cons a rest ih => exact ih

/-- Claim C9 (amended): `has_changed` suspends until the notification
fires at least once and then keeps draining until the source closes: with
a closed source it returns `true` exactly when at least one notification
was buffered and `false` when none was; with a source that stays open and
never fires again it never returns — both before the first notification
and, contrary to mere coalescing of the already-queued ones, while
draining after it. -/
theorem C9_has_changed_drains_until_close (q : List Unit) :
    (hasChanged ⟨q, false⟩).1 = .blocks ∧
    (hasChanged ⟨q, true⟩).1 = .ok (!q.isEmpty) := by
  cases q with
  | nil => exact ⟨rfl, rfl⟩
  | cons a rest =>
    constructor
    · simp [hasChanged, drainLoop, (drainLoop_go_spec rest).1, ExecOutcome.map]
    · simp [hasChanged, drainLoop, (drainLoop_go_spec rest).2, ExecOutcome.map]

/-! ## Claim C10 -/

/-- Claim C10 counterexample: the legacy top-level display tracker's
`refresh` clears `self.monitors` before the snapshot query, so a failed
query leaves the cache empty, not intact. -/
theorem C10_counterexample_legacy_refresh_wipes_cache :
    legacyRefresh ⟨[("HDMI-1", sampleMonitor)]⟩ (.error "bus error") =
      (.error "bus error", ⟨[]⟩) ∧
    (DisplayStateTracker.mk [] ≠ ⟨[("HDMI-1", sampleMonitor)]⟩) :=
  ⟨rfl, by decide⟩

/-- Claim C10 (amended): the backend display tracker's refresh is atomic —
any query or parse failure surfaces the error and leaves the previous
cache fully intact, and a success replaces the whole cache with the
freshly built map; the window tracker likewise preserves its cache on a
failed query but panics (instead of surfacing an error) on a malformed
window entry; and the legacy top-level display tracker clears its cache
before the query, so a failed query there leaves it empty. -/
theorem C10_refresh_atomicity :
    (∀ (t : DisplayStateTracker) (q : Except String (List RawMonitor))
        (e : String),
      (t.refresh q).1 = .error e → (t.refresh q).2 = t) ∧
    (∀ (t : DisplayStateTracker) (data : List RawMonitor)
        (m : List (String × Monitor)),
      buildMonitors data = .ok m → t.refresh (.ok data) = (.ok (), ⟨m⟩)) ∧
    (∀ (t : WindowStateTracker) (e : String),
      t.refresh (.error e) = (.err e, t)) ∧
    (∀ (t : WindowStateTracker) (r : RawWindow) (rest : List RawWindow),
      parseWindow r = .panicked →
      t.refresh (.ok (r :: rest)) = (.panicked, t)) ∧
    (∀ (t : DisplayStateTracker) (e : String),
      legacyRefresh t (.error e) = (.error e, ⟨[]⟩)) := by
  refine ⟨?_, ?_, ?_, ?_, ?_⟩
  · intro t q e h
    rcases q with e' | data
    · rfl
    · rcases hb : buildMonitors data with e' | m
      · simp [DisplayStateTracker.refresh, hb]
      · simp [DisplayStateTracker.refresh, hb] at h
  · intro t data m h
    simp [DisplayStateTracker.refresh, h]
  · intro t e
    rfl
  · intro t r rest h
    simp [WindowStateTracker.refresh, WindowStateTracker.refresh.insLoop, h,
      ExecOutcome.map]
  · intro t e
    rfl

/-- Witness for the amended C10 theorem at concrete inputs: a failing
query against a non-empty backend display cache, a successful empty
snapshot, a failing window query, a window entry with no properties
(which panics), and the legacy clear-first behaviour. -/
theorem C10_refresh_atomicity_witness :
    (DisplayStateTracker.refresh ⟨[("HDMI-1", sampleMonitor)]⟩
        (.error "bus error")).2 = ⟨[("HDMI-1", sampleMonitor)]⟩ ∧
    DisplayStateTracker.refresh ⟨[("HDMI-1", sampleMonitor)]⟩ (.ok []) =
      (.ok (), ⟨[]⟩) ∧
    WindowStateTracker.refresh ⟨[(42, sampleWindow)]⟩ (.error "bus error") =
      (.err "bus error", ⟨[(42, sampleWindow)]⟩) ∧
    WindowStateTracker.refresh ⟨[(42, sampleWindow)]⟩ (.ok [⟨9, []⟩]) =
      (.panicked, ⟨[(42, sampleWindow)]⟩) ∧
    legacyRefresh ⟨[("HDMI-1", sampleMonitor)]⟩ (.error "boom") =
      (.error "boom", ⟨[]⟩) :=
  ⟨C10_refresh_atomicity.1 ⟨[("HDMI-1", sampleMonitor)]⟩ (.error "bus error")
     "bus error" rfl,
   C10_refresh_atomicity.2.1 ⟨[("HDMI-1", sampleMonitor)]⟩ [] [] rfl,
   C10_refresh_atomicity.2.2.1 ⟨[(42, sampleWindow)]⟩ "bus error",
   C10_refresh_atomicity.2.2.2.1 ⟨[(42, sampleWindow)]⟩ ⟨9, []⟩ [] rfl,
   C10_refresh_atomicity.2.2.2.2 ⟨[("HDMI-1", sampleMonitor)]⟩ "boom"⟩

end Kagayaku
